import Mathlib

/-!
Shallow embedding of the vote-accumulator bot (src/bot.py).

The sqlite table `users` is modelled as a list of rows in insertion order.
`dbUpdate` mirrors the SQL `UPDATE users SET ... WHERE user_id = ?`: it
rewrites every matching row and is a no-op when the key is absent.
`dbFind` mirrors `SELECT * FROM users WHERE user_id = ? LIMIT 1` via the
first matching row.  Counters are sqlite INTEGER columns, hence `Int`.
-/

/-- One row of the `users` table, in the column order used by the source
(user_id, user_name, upvotes_earned, downvotes_earned, score, times_voted). -/
structure UserRow where
  user_id : Nat
  user_name : String
  upvotes_earned : Int
  downvotes_earned : Int
  score : Int
  times_voted : Int
deriving DecidableEq, Repr

/-- The `users` table (rows in insertion order). -/
abbrev Db := List UserRow

/-- The fields of a raw reaction event that the two reaction handlers read:
the reacting member, the fetched message's author and attachment count, the
emoji name, and the message's current per-emoji reaction tallies that the
abuse monitor re-sums (`msg_up` / `msg_down`). -/
structure ReactionEvent where
  voter_id : Nat
  voter_bot : Bool
  author_id : Nat
  author_bot : Bool
  author_in_guild : Bool
  attachments : Nat
  emoji : String
  msg_up : Nat
  msg_down : Nat
deriving DecidableEq, Repr

/-- Model of `SELECT * FROM users WHERE user_id = ? LIMIT 1`. -/
def dbFind (db : Db) (uid : Nat) : Option UserRow :=
  db.find? fun r => r.user_id == uid

/-- Model of `UPDATE users SET ... WHERE user_id = ?`: every row whose key
matches is rewritten by `f`; absent keys make the statement a no-op. -/
def dbUpdate (db : Db) (uid : Nat) (f : UserRow → UserRow) : Db :=
  db.map fun r => if r.user_id = uid then f r else r

/-- Outcome of one reaction handler invocation: the table afterwards, whether
the handler removed the reaction from the message (the self-vote retraction
in `on_raw_reaction_add`), and how many abuse alerts it sent to the log
channel. -/
structure HandlerResult where
  db : Db
  retraction : Bool
  alerts : Nat
deriving DecidableEq, Repr

/-- Model of `on_raw_reaction_add` (src/bot.py lines 283-355).  The gate
order follows the source: the voter bot check wraps everything; then one
combined early return for author-not-in-guild / author-bot / zero
attachments; then the self-vote check (which retracts the reaction); then
the counter updates; finally the abuse monitor re-sums the message tallies
and alerts when downvotes exceed upvotes plus 5. -/
def on_raw_reaction_add (db : Db) (e : ReactionEvent) : HandlerResult :=
  if e.voter_bot then ⟨db, false, 0⟩
  else if e.author_in_guild = false ∨ e.author_bot = true ∨ e.attachments = 0 then
    ⟨db, false, 0⟩
  else if e.author_id = e.voter_id then ⟨db, true, 0⟩
  else
    let db1 :=
      if e.emoji = "1Upvote" then
        dbUpdate (dbUpdate db e.author_id
            fun r => { r with upvotes_earned := r.upvotes_earned + 1 })
          e.author_id fun r => { r with score := r.score + 1 }
      else if e.emoji = "1Downvote" then
        dbUpdate (dbUpdate db e.author_id
            fun r => { r with downvotes_earned := r.downvotes_earned + 1 })
          e.author_id fun r => { r with score := r.score - 1 }
      else db
    let db2 :=
      if e.emoji = "1Upvote" ∨ e.emoji = "1Downvote" then
        dbUpdate db1 e.voter_id fun r => { r with times_voted := r.times_voted + 1 }
      else db1
    ⟨db2, false, if e.msg_up + 5 < e.msg_down then 1 else 0⟩

/-- Table mutation performed by `on_raw_reaction_remove` (src/bot.py lines
361-416).  Gates as in the source: author-not-in-guild, then author-bot /
self / zero attachments.  There is no voter bot gate.  For an upvote or
downvote emoji the handler first reads the author's counter and decrements
counter and score only when it is positive; when the author row is absent,
`cursor.fetchone()[0]` raises before anything is committed, so the whole
event leaves the table unchanged.  The voter's `times_voted` is decremented
with no lower bound. -/
def removeCore (db : Db) (e : ReactionEvent) : Db :=
  if e.author_in_guild = false then db
  else if e.author_bot = true ∨ e.author_id = e.voter_id ∨ e.attachments = 0 then db
  else if e.emoji = "1Upvote" then
    match dbFind db e.author_id with
    | none => db
    | some r =>
      let db1 :=
        if 0 < r.upvotes_earned then
          dbUpdate (dbUpdate db e.author_id
              fun u => { u with upvotes_earned := u.upvotes_earned - 1 })
            e.author_id fun u => { u with score := u.score - 1 }
        else db
      dbUpdate db1 e.voter_id fun u => { u with times_voted := u.times_voted - 1 }
  else if e.emoji = "1Downvote" then
    match dbFind db e.author_id with
    | none => db
    | some r =>
      let db1 :=
        if 0 < r.downvotes_earned then
          dbUpdate (dbUpdate db e.author_id
              fun u => { u with downvotes_earned := u.downvotes_earned - 1 })
            e.author_id fun u => { u with score := u.score + 1 }
        else db
      dbUpdate db1 e.voter_id fun u => { u with times_voted := u.times_voted - 1 }
  else db

/-- Model of `on_raw_reaction_remove`.  The source handler contains no
reaction-retraction call and no abuse-monitor block (that block exists only
in `on_raw_reaction_add`), so its only observable effect is the table
mutation of `removeCore`. -/
def on_raw_reaction_remove (db : Db) (e : ReactionEvent) : HandlerResult :=
  ⟨removeCore db e, false, 0⟩

/-- Model of `add_user` as invoked by `on_member_join`: non-bot members get
a fresh all-zero row; the duplicate-key `INSERT` raises `IntegrityError`
and commits nothing, so an existing row is left untouched. -/
def add_user (db : Db) (uid : Nat) (name : String) (isBot : Bool) : Db :=
  if isBot then db
  else
    match dbFind db uid with
    | some _ => db
    | none => db ++ [⟨uid, name, 0, 0, 0, 0⟩]

/-- Model of `on_member_remove`: `DELETE FROM users WHERE user_id = ?`
after the bot check. -/
def on_member_remove (db : Db) (uid : Nat) (isBot : Bool) : Db :=
  if isBot then db else db.filter fun r => r.user_id != uid

/-- Model of the admin `change_up` command body: it looks the user up and,
when present, runs `UPDATE users SET upvotes_earned = upvotes_earned + ?`.
No statement in the command touches the `score` column. -/
def change_up (db : Db) (uid : Nat) (num : Int) : Db :=
  match dbFind db uid with
  | none => db
  | some _ =>
    dbUpdate db uid fun r => { r with upvotes_earned := r.upvotes_earned + num }

/-- Model of the admin `change_down` command body: as `change_up` but on the
`downvotes_earned` column; `score` is again untouched. -/
def change_down (db : Db) (uid : Nat) (num : Int) : Db :=
  match dbFind db uid with
  | none => db
  | some _ =>
    dbUpdate db uid fun r => { r with downvotes_earned := r.downvotes_earned + num }

/-- Events handled by the Ledger and Directory (no admin commands). -/
inductive LedgerEvent where
  | reactAdd (e : ReactionEvent)
  | reactRemove (e : ReactionEvent)
  | memberJoin (uid : Nat) (name : String) (isBot : Bool)
  | memberRemove (uid : Nat) (isBot : Bool)
deriving DecidableEq, Repr

/-- Table transition of one ledger event. -/
def applyLedger (db : Db) (ev : LedgerEvent) : Db :=
  match ev with
  | .reactAdd e => (on_raw_reaction_add db e).db
  | .reactRemove e => (on_raw_reaction_remove db e).db
  | .memberJoin uid name isBot => add_user db uid name isBot
  | .memberRemove uid isBot => on_member_remove db uid isBot

/-- Ledger events plus the admin adjust commands. -/
inductive SysEvent where
  | ledger (ev : LedgerEvent)
  | adjustUp (uid : Nat) (num : Int)
  | adjustDown (uid : Nat) (num : Int)
deriving DecidableEq, Repr

/-- Table transition of one system event. -/
def applySys (db : Db) (ev : SysEvent) : Db :=
  match ev with
  | .ledger ev2 => applyLedger db ev2
  | .adjustUp uid num => change_up db uid num
  | .adjustDown uid num => change_down db uid num

/-- Table reached from the empty table by a sequence of ledger events. -/
def runLedger (evs : List LedgerEvent) : Db :=
  evs.foldl applyLedger []

/-- Table reached from the empty table by a sequence of system events. -/
def runSys (evs : List SysEvent) : Db :=
  evs.foldl applySys []

/-- The `limit` command's threshold range check, `limit <= 0.0 and
limit >= 1.0` (src/bot.py line 807): the command sends a rejection message
and returns exactly when this is `true`. -/
def limitRejects (t : Rat) : Bool :=
  decide (t ≤ 0) && decide (1 ≤ t)

/-- The `limit` command's per-row pre-filter, `row[3] != 0 or row[4] != 0`
(src/bot.py line 820): column 3 is `downvotes_earned` and column 4 is
`score`. -/
def limitPass (r : UserRow) : Bool :=
  r.downvotes_earned != 0 || r.score != 0

/-- The `limit` command's scan over the table (src/bot.py lines 819-827):
for each row passing the pre-filter it computes `row[2] / (row[2] + row[3])`
and keeps the row when that value is at most the threshold and the optional
minimum-vote bound is met. -/
def limitScan (db : Db) (t : Rat) (minVotes : Option Int) : List (String × Rat) :=
  db.filterMap fun r =>
    if limitPass r then
      let total := r.upvotes_earned + r.downvotes_earned
      let rt : Rat := (r.upvotes_earned : Rat) / (total : Rat)
      if rt ≤ t then
        match minVotes with
        | some m => if total < m then none else some (r.user_name, rt)
        | none => some (r.user_name, rt)
      else none
    else none

/-- Column selected by the `top` command's criterion string `k`
(`"score"` is the default and the fallthrough). -/
def critKey (k : String) (r : UserRow) : Int :=
  if k = "upvotes_earned" then r.upvotes_earned
  else if k = "downvotes_earned" then r.downvotes_earned
  else if k = "times_voted" then r.times_voted
  else r.score

/-- Insert a row into a list that is sorted descending by `key`. -/
def insertDesc (key : UserRow → Int) (r : UserRow) : List UserRow → List UserRow
  | [] => [r]
  | x :: xs => if key x < key r then r :: x :: xs else x :: insertDesc key r xs

/-- Sort rows descending by `key` (one realisation of sqlite's
`ORDER BY ... DESC`, which leaves tie order unspecified). -/
def sortDesc (key : UserRow → Int) : List UserRow → List UserRow
  | [] => []
  | x :: xs => insertDesc key x (sortDesc key xs)

/-- The rows fetched by the `top` command's query
`SELECT * FROM users ORDER BY k DESC LIMIT n` (src/bot.py line 578). -/
def topQuery (db : Db) (k : String) (n : Nat) : List UserRow :=
  (sortDesc (critKey k) db).take n

/-- The `top` command's display filter on the fetched rows,
`(row[3] != 0 or row[4] != 0) or k == 'times_voted'`
(src/bot.py line 591): columns 3 and 4 are `downvotes_earned` and `score`. -/
def topKeep (k : String) (r : UserRow) : Bool :=
  (r.downvotes_earned != 0 || r.score != 0) || k == "times_voted"

/-- The rows the `top` command actually renders: the limited query result,
then the display filter. -/
def topDisplay (db : Db) (k : String) (n : Nat) : List UserRow :=
  (topQuery db k n).filter (topKeep k)

/-- Per-row store invariant: the score column caches
`upvotes_earned - downvotes_earned` and the earned counters are
non-negative. -/
def RowOk (r : UserRow) : Prop :=
  r.score = r.upvotes_earned - r.downvotes_earned ∧
  0 ≤ r.upvotes_earned ∧ 0 ≤ r.downvotes_earned

/-- Table invariant: keys are unique (the `user_id INTEGER PRIMARY KEY`
constraint) and every row satisfies `RowOk`. -/
def DbOk (db : Db) : Prop :=
  (db.map UserRow.user_id).Nodup ∧ ∀ r, r ∈ db → RowOk r

/-- Fixture: a single-user table for the admin-adjust checks. -/
def fixDbAdjust : Db := [⟨1, "alice", 0, 0, 0, 0⟩]

/-- Fixture: user 2 removes an upvote from user 1's post with no matching
prior add. -/
def fixRemRedundant : ReactionEvent := ⟨2, false, 1, false, true, 1, "1Upvote", 0, 0⟩

/-- Fixture: two members join, then a redundant upvote removal arrives. -/
def fixEvsC2 : List LedgerEvent :=
  [.memberJoin 1 "a" false, .memberJoin 2 "b" false, .reactRemove fixRemRedundant]

/-- Fixture: a one-user table with one upvote and one downvote recorded. -/
def fixDbScan : Db := [⟨1, "a", 1, 1, 0, 2⟩]

/-- Fixture: user 2 adds an upvote on user 1's post. -/
def fixAddB2A : ReactionEvent := ⟨2, false, 1, false, true, 1, "1Upvote", 0, 0⟩

/-- Fixture: two members join, user 1 earns an upvote, then an admin runs
`change_up` with delta `-1` on user 1. -/
def fixEvsC4 : List SysEvent :=
  [.ledger (.memberJoin 1 "a" false), .ledger (.memberJoin 2 "b" false),
   .ledger (.reactAdd fixAddB2A), .adjustUp 1 (-1)]

/-- Fixture: ledger-only run in which user 1 earns one upvote. -/
def fixEvsC4w : List LedgerEvent :=
  [.memberJoin 1 "a" false, .memberJoin 2 "b" false, .reactAdd fixAddB2A]

/-- Fixture: ledger-only run reaching a table where user 1 has one upvote. -/
def fixEvsC5 : List LedgerEvent :=
  [.memberJoin 1 "a" false, .memberJoin 2 "b" false, .reactAdd fixAddB2A]

/-- Fixture: a bot-flagged identity (id 3) removes an upvote from user 1's
post. -/
def fixBotRem : ReactionEvent := ⟨3, true, 1, false, true, 1, "1Upvote", 0, 0⟩

/-- Fixture: a bot-flagged identity (id 3) adds an upvote on user 1's post. -/
def fixBotAdd : ReactionEvent := ⟨3, true, 1, false, true, 1, "1Upvote", 0, 0⟩

/-- Fixture: a self-reaction (voter id = author id = 1) on a post with zero
attachments. -/
def fixSelfNoAttach : ReactionEvent := ⟨1, false, 1, false, true, 0, "1Upvote", 0, 0⟩

/-- Fixture: a self-reaction on a post that has one attachment. -/
def fixSelfAttach : ReactionEvent := ⟨1, false, 1, false, true, 1, "1Upvote", 0, 0⟩

/-- Fixture: a two-user table where user 1 already has two upvotes. -/
def fixDbC7 : Db := [⟨1, "a", 2, 0, 2, 0⟩, ⟨2, "b", 0, 0, 0, 0⟩]

/-- Fixture: user 2 reacts with an upvote on user 1's post. -/
def fixEvC7 : ReactionEvent := ⟨2, false, 1, false, true, 1, "1Upvote", 0, 0⟩

/-- Fixture: same run as `fixEvsC4`, used for the `top` filter check. -/
def fixEvsC8 : List SysEvent :=
  [.ledger (.memberJoin 1 "a" false), .ledger (.memberJoin 2 "b" false),
   .ledger (.reactAdd fixAddB2A), .adjustUp 1 (-1)]

/-- Fixture: a one-user table whose user has only cast votes. -/
def fixDbC8w : Db := [⟨1, "a", 0, 0, 0, 3⟩]

/-- Fixture: a two-user table for the abuse-monitor check. -/
def fixDbC9 : Db := [⟨1, "a", 1, 0, 1, 0⟩, ⟨2, "b", 0, 0, 0, 1⟩]

/-- Fixture: an upvote removal on a message whose live tallies are 0
upvotes and 10 downvotes. -/
def fixEvC9 : ReactionEvent := ⟨2, false, 1, false, true, 1, "1Upvote", 0, 10⟩

/-- Fixture: an upvote addition on a message whose live tallies are 4
upvotes and 10 downvotes. -/
def fixEvC9w : ReactionEvent := ⟨2, false, 1, false, true, 1, "1Upvote", 4, 10⟩

/-- Fixture: user 1 votes once up and three times down on user 2's posts,
leaving user 1 at score 0 with no earned votes and user 2 at score -2. -/
def fixEvsC10 : List SysEvent :=
  [.ledger (.memberJoin 1 "a" false), .ledger (.memberJoin 2 "b" false),
   .ledger (.reactAdd ⟨1, false, 2, false, true, 1, "1Upvote", 0, 0⟩),
   .ledger (.reactAdd ⟨1, false, 2, false, true, 1, "1Downvote", 0, 0⟩),
   .ledger (.reactAdd ⟨1, false, 2, false, true, 1, "1Downvote", 0, 0⟩),
   .ledger (.reactAdd ⟨1, false, 2, false, true, 1, "1Downvote", 0, 0⟩)]

/-! ### Helper lemmas about the store operations -/

lemma dbUpdate_keys (db : Db) (uid : Nat) (f : UserRow → UserRow)
    (hf : ∀ r, (f r).user_id = r.user_id) :
    (dbUpdate db uid f).map UserRow.user_id = db.map UserRow.user_id := by
  induction db with
  | nil => rfl
  | cons x xs ih =>
    simp only [dbUpdate, List.map_cons] at ih ⊢
    by_cases h : x.user_id = uid
    · simp [h, hf, ih]
    · simp [h, ih]

lemma mem_dbUpdate {db : Db} {uid : Nat} {f : UserRow → UserRow} {s : UserRow}
    (h : s ∈ dbUpdate db uid f) :
    ∃ r, r ∈ db ∧ s = if r.user_id = uid then f r else r := by
  simp only [dbUpdate] at h
  rcases List.mem_map.1 h with ⟨r, hr, he⟩
  exact ⟨r, hr, he.symm⟩

lemma dbUpdate_dbUpdate (db : Db) (uid : Nat) (f g : UserRow → UserRow)
    (hf : ∀ r, (f r).user_id = r.user_id) :
    dbUpdate (dbUpdate db uid f) uid g = dbUpdate db uid fun r => g (f r) := by
  induction db with
  | nil => rfl
  | cons x xs ih =>
    simp only [dbUpdate, List.map_cons] at ih ⊢
    by_cases h : x.user_id = uid
    · simp [h, hf, ih]
    · simp [h, ih]

lemma dbFind_cons_pos {x : UserRow} {xs : Db} {a : Nat} (h : x.user_id = a) :
    dbFind (x :: xs) a = some x :=
  List.find?_cons_of_pos xs (by simpa using h)

lemma dbFind_cons_neg {x : UserRow} {xs : Db} {a : Nat} (h : ¬ x.user_id = a) :
    dbFind (x :: xs) a = dbFind xs a :=
  List.find?_cons_of_neg xs (by simpa using h)

lemma dbUpdate_cons (x : UserRow) (xs : Db) (uid : Nat) (f : UserRow → UserRow) :
    dbUpdate (x :: xs) uid f =
      (if x.user_id = uid then f x else x) :: dbUpdate xs uid f := rfl

lemma dbFind_dbUpdate_self (db : Db) (a : Nat) (f : UserRow → UserRow)
    (hf : ∀ r, (f r).user_id = r.user_id) :
    dbFind (dbUpdate db a f) a = (dbFind db a).map f := by
  induction db with
  | nil => rfl
  | cons x xs ih =>
    rw [dbUpdate_cons]
    by_cases h : x.user_id = a
    · rw [if_pos h, dbFind_cons_pos (by rw [hf x]; exact h), dbFind_cons_pos h]
      rfl
    · rw [if_neg h, dbFind_cons_neg h, dbFind_cons_neg h, ih]

lemma dbFind_dbUpdate_ne (db : Db) (uid a : Nat) (f : UserRow → UserRow)
    (hf : ∀ r, (f r).user_id = r.user_id) (hne : uid ≠ a) :
    dbFind (dbUpdate db uid f) a = dbFind db a := by
  induction db with
  | nil => rfl
  | cons x xs ih =>
    rw [dbUpdate_cons]
    by_cases h : x.user_id = uid
    · have h3 : ¬ x.user_id = a := by rw [h]; exact hne
      rw [if_pos h, dbFind_cons_neg (by rw [hf x]; exact h3), dbFind_cons_neg h3, ih]
    · by_cases h3 : x.user_id = a
      · rw [if_neg h, dbFind_cons_pos h3, dbFind_cons_pos h3]
      · rw [if_neg h, dbFind_cons_neg h3, dbFind_cons_neg h3, ih]

lemma dbFind_mem {db : Db} {uid : Nat} {r : UserRow}
    (h : dbFind db uid = some r) : r ∈ db :=
  List.mem_of_find?_eq_some h

lemma dbFind_key {db : Db} {uid : Nat} {r : UserRow}
    (h : dbFind db uid = some r) : r.user_id = uid := by
  have h2 := List.find?_some h
  simpa using h2

lemma dbFind_eq_none_iff {db : Db} {uid : Nat} :
    dbFind db uid = none ↔ ∀ r, r ∈ db → r.user_id ≠ uid := by
  unfold dbFind
  rw [List.find?_eq_none]
  constructor
  · intro h r hr
    have h2 := h r hr
    simpa using h2
  · intro h r hr
    simpa using h r hr

lemma dbRowsUnique {db : Db} (h : (db.map UserRow.user_id).Nodup)
    {r s : UserRow} (hr : r ∈ db) (hs : s ∈ db)
    (he : r.user_id = s.user_id) : r = s := by
  induction db with
  | nil => cases hr
  | cons x xs ih =>
    simp only [List.map_cons, List.nodup_cons] at h
    rcases List.mem_cons.1 hr with rfl | hr2
    · rcases List.mem_cons.1 hs with rfl | hs2
      · rfl
      · exfalso
        apply h.1
        rw [he]
        exact List.mem_map_of_mem UserRow.user_id hs2
    · rcases List.mem_cons.1 hs with rfl | hs2
      · exfalso
        apply h.1
        rw [← he]
        exact List.mem_map_of_mem UserRow.user_id hr2
      · exact ih h.2 hr2 hs2

/-! ### Preservation of the store invariant by the ledger events -/

lemma dbOk_dbUpdate {db : Db} {uid : Nat} {f : UserRow → UserRow}
    (h : DbOk db) (hf : ∀ r, (f r).user_id = r.user_id)
    (hk : ∀ r, r ∈ db → r.user_id = uid → RowOk r → RowOk (f r)) :
    DbOk (dbUpdate db uid f) := by
  refine ⟨?_, ?_⟩
  · rw [dbUpdate_keys db uid f hf]
    exact h.1
  · intro s hs
    rcases mem_dbUpdate hs with ⟨r, hr, he⟩
    by_cases hid : r.user_id = uid
    · rw [he, if_pos hid]
      exact hk r hr hid (h.2 r hr)
    · rw [he, if_neg hid]
      exact h.2 r hr

lemma dbOk_reaction_add (db : Db) (e : ReactionEvent) (h : DbOk db) :
    DbOk (on_raw_reaction_add db e).db := by
  unfold on_raw_reaction_add
  by_cases h1 : e.voter_bot = true
  · rw [if_pos h1]
    exact h
  rw [if_neg h1]
  by_cases h2 : e.author_in_guild = false ∨ e.author_bot = true ∨ e.attachments = 0
  · rw [if_pos h2]
    exact h
  rw [if_neg h2]
  by_cases h3 : e.author_id = e.voter_id
  · rw [if_pos h3]
    exact h
  rw [if_neg h3]
  dsimp only
  by_cases hu : e.emoji = "1Upvote"
  · have hcomp := dbUpdate_dbUpdate db e.author_id
      (fun r => { r with upvotes_earned := r.upvotes_earned + 1 })
      (fun r => { r with score := r.score + 1 }) (fun r => rfl)
    rw [if_pos hu, if_pos (Or.inl hu), hcomp]
    refine dbOk_dbUpdate ?_ (fun r => rfl) ?_
    · refine dbOk_dbUpdate h (fun r => rfl) ?_
      intro r hr hid hok
      unfold RowOk at hok ⊢
      dsimp only
      omega
    · intro r hr hid hok
      unfold RowOk at hok ⊢
      dsimp only
      omega
  by_cases hd : e.emoji = "1Downvote"
  · have hcomp := dbUpdate_dbUpdate db e.author_id
      (fun r => { r with downvotes_earned := r.downvotes_earned + 1 })
      (fun r => { r with score := r.score - 1 }) (fun r => rfl)
    rw [if_neg hu, if_pos hd, if_pos (Or.inr hd), hcomp]
    refine dbOk_dbUpdate ?_ (fun r => rfl) ?_
    · refine dbOk_dbUpdate h (fun r => rfl) ?_
      intro r hr hid hok
      unfold RowOk at hok ⊢
      dsimp only
      omega
    · intro r hr hid hok
      unfold RowOk at hok ⊢
      dsimp only
      omega
  · rw [if_neg hu, if_neg hd, if_neg (by rintro (hc | hc); exact hu hc; exact hd hc)]
    exact h

lemma dbOk_remove (db : Db) (e : ReactionEvent) (h : DbOk db) :
    DbOk (removeCore db e) := by
  unfold removeCore
  by_cases h1 : e.author_in_guild = false
  · rw [if_pos h1]
    exact h
  rw [if_neg h1]
  by_cases h2 : e.author_bot = true ∨ e.author_id = e.voter_id ∨ e.attachments = 0
  · rw [if_pos h2]
    exact h
  rw [if_neg h2]
  by_cases hu : e.emoji = "1Upvote"
  · rw [if_pos hu]
    rcases hfind : dbFind db e.author_id with _ | r
    · simp only [hfind]
      exact h
    · simp only [hfind]
      by_cases hg : 0 < r.upvotes_earned
      · have hcomp := dbUpdate_dbUpdate db e.author_id
          (fun u => { u with upvotes_earned := u.upvotes_earned - 1 })
          (fun u => { u with score := u.score - 1 }) (fun u => rfl)
        rw [if_pos hg, hcomp]
        refine dbOk_dbUpdate ?_ (fun s => rfl) ?_
        · refine dbOk_dbUpdate h (fun s => rfl) ?_
          intro s hs hid hok
          have hsr : s = r :=
            dbRowsUnique h.1 hs (dbFind_mem hfind)
              (by rw [hid, dbFind_key hfind])
          subst hsr
          unfold RowOk at hok ⊢
          dsimp only
          omega
        · intro s hs hid hok
          unfold RowOk at hok ⊢
          dsimp only
          omega
      · rw [if_neg hg]
        refine dbOk_dbUpdate h (fun s => rfl) ?_
        intro s hs hid hok
        unfold RowOk at hok ⊢
        dsimp only
        omega
  rw [if_neg hu]
  by_cases hd : e.emoji = "1Downvote"
  · rw [if_pos hd]
    rcases hfind : dbFind db e.author_id with _ | r
    · simp only [hfind]
      exact h
    · simp only [hfind]
      by_cases hg : 0 < r.downvotes_earned
      · have hcomp := dbUpdate_dbUpdate db e.author_id
          (fun u => { u with downvotes_earned := u.downvotes_earned - 1 })
          (fun u => { u with score := u.score + 1 }) (fun u => rfl)
        rw [if_pos hg, hcomp]
        refine dbOk_dbUpdate ?_ (fun s => rfl) ?_
        · refine dbOk_dbUpdate h (fun s => rfl) ?_
          intro s hs hid hok
          have hsr : s = r :=
            dbRowsUnique h.1 hs (dbFind_mem hfind)
              (by rw [hid, dbFind_key hfind])
          subst hsr
          unfold RowOk at hok ⊢
          dsimp only
          omega
        · intro s hs hid hok
          unfold RowOk at hok ⊢
          dsimp only
          omega
      · rw [if_neg hg]
        refine dbOk_dbUpdate h (fun s => rfl) ?_
        intro s hs hid hok
        unfold RowOk at hok ⊢
        dsimp only
        omega
  · rw [if_neg hd]
    exact h

lemma dbOk_add_user (db : Db) (uid : Nat) (name : String) (isBot : Bool)
    (h : DbOk db) : DbOk (add_user db uid name isBot) := by
  unfold add_user
  by_cases hb : isBot = true
  · rw [if_pos hb]
    exact h
  rw [if_neg hb]
  rcases hfind : dbFind db uid with _ | r
  · simp only [hfind]
    constructor
    · rw [List.map_append, List.nodup_append]
      refine ⟨h.1, by simp, ?_⟩
      intro a ha
      rcases List.mem_map.1 ha with ⟨s, hs, hsa⟩
      have hne : s.user_id ≠ uid := dbFind_eq_none_iff.1 hfind s hs
      simp only [List.map_cons, List.map_nil, List.mem_singleton]
      rw [← hsa]
      exact hne
    · intro s hs
      rcases List.mem_append.1 hs with hs2 | hs2
      · exact h.2 s hs2
      · have : s = ⟨uid, name, 0, 0, 0, 0⟩ := by simpa using hs2
        subst this
        exact ⟨by simp, by simp, by simp⟩
  · simp only [hfind]
    exact h

lemma dbOk_member_remove (db : Db) (uid : Nat) (isBot : Bool) (h : DbOk db) :
    DbOk (on_member_remove db uid isBot) := by
  unfold on_member_remove
  by_cases hb : isBot = true
  · rw [if_pos hb]
    exact h
  rw [if_neg hb]
  have hsub : List.Sublist (db.filter (fun r => r.user_id != uid)) db :=
    List.filter_sublist db
  constructor
  · exact List.Nodup.sublist (List.Sublist.map UserRow.user_id hsub) h.1
  · intro r hr
    exact h.2 r (List.mem_of_mem_filter hr)

lemma dbOk_applyLedger (db : Db) (ev : LedgerEvent) (h : DbOk db) :
    DbOk (applyLedger db ev) := by
  cases ev with
  | reactAdd e => exact dbOk_reaction_add db e h
  | reactRemove e => exact dbOk_remove db e h
  | memberJoin uid name isBot => exact dbOk_add_user db uid name isBot h
  | memberRemove uid isBot => exact dbOk_member_remove db uid isBot h

lemma dbOk_foldl (evs : List LedgerEvent) :
    ∀ db, DbOk db → DbOk (evs.foldl applyLedger db) := by
  induction evs with
  | nil =>
    intro db h
    exact h
  | cons ev evs ih =>
    intro db h
    exact ih _ (dbOk_applyLedger db ev h)

lemma dbOk_runLedger (evs : List LedgerEvent) : DbOk (runLedger evs) :=
  dbOk_foldl evs [] ⟨by simp, by intro r hr; cases hr⟩

/-! ### Claim theorems -/

/-- Claim C1 (code bug): the claim says the stored `score` equals
`upvotes_earned - downvotes_earned` after every committed mutation,
including the admin adjust commands.  `change_up` (whose own docstring says
it adds to the user's score) updates only the `upvotes_earned` column and
never the `score` column: adjusting a fresh all-zero user by +1 leaves
`score = 0` while the difference becomes 1. -/
theorem claim1_adjust_breaks_score_invariant :
    change_up fixDbAdjust 1 1 = [⟨1, "alice", 1, 0, 0, 0⟩] ∧
    ∃ r, r ∈ change_up fixDbAdjust 1 1 ∧
      ¬ r.score = r.upvotes_earned - r.downvotes_earned :=
  ⟨by decide, ⟨1, "alice", 1, 0, 0, 0⟩, by decide, by decide⟩

/-- Claim C2 counterexample: a redundant `remove(upvote)` without a matching
prior add (two fresh members, then one removal event) drives the reactor's
`times_voted` counter to -1, because the source decrements it without a
floor guard.  This refutes the claim that no stored counter ever becomes
negative. -/
theorem claim2_counterexample :
    ∃ r, r ∈ runLedger fixEvsC2 ∧ r.times_voted < 0 :=
  ⟨⟨2, "b", 0, 0, 0, -1⟩, by decide, by decide⟩

/-- Claim C2 amended: over every sequence of reaction and membership events
the guarded counters `upvotes_earned` and `downvotes_earned` never become
negative (the unguarded `times_voted` can, as the counterexample shows). -/
theorem claim2_amended (evs : List LedgerEvent) (r : UserRow)
    (hr : r ∈ runLedger evs) :
    0 ≤ r.upvotes_earned ∧ 0 ≤ r.downvotes_earned := by
  have h := (dbOk_runLedger evs).2 r hr
  exact ⟨h.2.1, h.2.2⟩

/-- Witness for the amended C2 theorem at a concrete one-event run. -/
theorem claim2_amended_witness :
    0 ≤ (⟨1, "a", 0, 0, 0, 0⟩ : UserRow).upvotes_earned ∧
    0 ≤ (⟨1, "a", 0, 0, 0, 0⟩ : UserRow).downvotes_earned :=
  claim2_amended [.memberJoin 1 "a" false] ⟨1, "a", 0, 0, 0, 0⟩ (by decide)

/-- Claim C3 (code bug): the `limit` command's range check is
`limit <= 0.0 and limit >= 1.0`, which no value satisfies, so no threshold
is ever rejected: 3/2 passes the check and the scan still produces a
result, contradicting the claim (and the command's own rejection message)
that thresholds outside (0, 1) are rejected with no scan. -/
theorem claim3_threshold_check_never_rejects :
    limitRejects (3/2 : Rat) = false ∧
    limitScan fixDbScan (3/2 : Rat) none = [("a", (1 : Rat)/2)] ∧
    ∀ t : Rat, limitRejects t = false := by
  refine ⟨by norm_num [limitRejects],
    by norm_num [limitScan, fixDbScan, limitPass, List.filterMap_cons], ?_⟩
  intro t
  unfold limitRejects
  by_cases h1 : t ≤ 0
  · by_cases h2 : (1 : Rat) ≤ t
    · exact absurd (h2.trans h1) (by norm_num)
    · simp [h1, h2]
  · simp [h1]

/-- Claim C4 counterexample: the `limit` pre-filter tests
`downvotes_earned ≠ 0 or score ≠ 0`, not the vote total.  In the reachable
state produced by one earned upvote followed by the admin command
`change_up` with delta -1, user 1's row is (up = 0, down = 0, score = 1):
it passes the pre-filter while `upvotes_earned + downvotes_earned = 0`, so
the ratio division in the scan divides by zero. -/
theorem claim4_counterexample :
    ∃ r, r ∈ runSys fixEvsC4 ∧ limitPass r = true ∧
      r.upvotes_earned + r.downvotes_earned = 0 :=
  ⟨⟨1, "a", 0, 0, 1, 0⟩, by decide, by decide, by decide⟩

/-- Claim C4 amended: in every state reachable by reaction and membership
events alone (no admin adjust commands), a row passing the `limit`
pre-filter has a strictly positive vote total, so the ratio division is
safe there. -/
theorem claim4_amended (evs : List LedgerEvent) (r : UserRow)
    (hr : r ∈ runLedger evs) (hp : limitPass r = true) :
    0 < r.upvotes_earned + r.downvotes_earned := by
  obtain ⟨hs, hu, hd⟩ := (dbOk_runLedger evs).2 r hr
  unfold limitPass at hp
  simp only [Bool.or_eq_true, bne_iff_ne] at hp
  rcases hp with h | h
  · omega
  · omega

/-- Witness for the amended C4 theorem at a concrete run. -/
theorem claim4_amended_witness :
    0 < (⟨1, "a", 1, 0, 1, 0⟩ : UserRow).upvotes_earned +
        (⟨1, "a", 1, 0, 1, 0⟩ : UserRow).downvotes_earned :=
  claim4_amended fixEvsC4w ⟨1, "a", 1, 0, 1, 0⟩ (by decide) (by decide)

/-- Claim C5 counterexample: `on_raw_reaction_remove` has no voter bot
gate.  A bot-flagged identity removing an upvote from user 1's post (in a
state reached by ledger events) decrements user 1's `upvotes_earned` and
`score`, refuting the claim that bot-flagged reaction events in both
directions produce no mutation. -/
theorem claim5_counterexample :
    fixBotRem.voter_bot = true ∧
    (on_raw_reaction_remove (runLedger fixEvsC5) fixBotRem).db =
      [⟨1, "a", 0, 0, 0, 0⟩, ⟨2, "b", 0, 0, 0, 1⟩] ∧
    (on_raw_reaction_remove (runLedger fixEvsC5) fixBotRem).db ≠
      runLedger fixEvsC5 :=
  ⟨rfl, by decide, by decide⟩

/-- Claim C5 amended: the bot gate exists only in the add direction: an add
event whose reactor is bot-flagged changes nothing and produces no side
effect (remove events are not gated on the reactor's bot flag, as the
counterexample shows). -/
theorem claim5_amended (db : Db) (e : ReactionEvent) (h : e.voter_bot = true) :
    on_raw_reaction_add db e = ⟨db, false, 0⟩ := by
  unfold on_raw_reaction_add
  rw [if_pos h]

/-- Witness for the amended C5 theorem at a concrete bot-flagged event. -/
theorem claim5_amended_witness :
    on_raw_reaction_add [] fixBotAdd = ⟨[], false, 0⟩ :=
  claim5_amended [] fixBotAdd rfl

/-- Claim C6 counterexample: in `on_raw_reaction_add` the zero-attachment
early return is evaluated before the self-reaction check, so a
self-reaction on a zero-attachment post is dropped without any retraction,
refuting the claim that the retraction fires regardless of the attachment
count. -/
theorem claim6_counterexample :
    fixSelfNoAttach.author_id = fixSelfNoAttach.voter_id ∧
    fixSelfNoAttach.attachments = 0 ∧
    (on_raw_reaction_add fixDbC7 fixSelfNoAttach).db = fixDbC7 ∧
    (on_raw_reaction_add fixDbC7 fixSelfNoAttach).retraction = false :=
  ⟨rfl, rfl, by decide, by decide⟩

/-- Claim C6 amended: a self-reaction add never changes the table; the
retraction side effect fires exactly when the event survives the earlier
gates, in particular never on a zero-attachment post (the attachment gate
runs first). -/
theorem claim6_amended (db : Db) (e : ReactionEvent)
    (hself : e.author_id = e.voter_id) :
    (on_raw_reaction_add db e).db = db ∧
    (e.attachments = 0 → (on_raw_reaction_add db e).retraction = false) ∧
    (e.voter_bot = false → e.author_in_guild = true → e.author_bot = false →
      e.attachments ≠ 0 → (on_raw_reaction_add db e).retraction = true) := by
  unfold on_raw_reaction_add
  by_cases h1 : e.voter_bot = true
  · rw [if_pos h1]
    refine ⟨rfl, fun _ => rfl, ?_⟩
    intro hvb hg2 hab2 hat2
    rw [hvb] at h1
    exact Bool.noConfusion h1
  rw [if_neg h1]
  by_cases h2 : e.author_in_guild = false ∨ e.author_bot = true ∨ e.attachments = 0
  · rw [if_pos h2]
    refine ⟨rfl, fun _ => rfl, ?_⟩
    intro hvb hg2 hab2 hat2
    rcases h2 with hc | hc | hc
    · rw [hg2] at hc
      exact Bool.noConfusion hc
    · rw [hab2] at hc
      exact Bool.noConfusion hc
    · exact absurd hc hat2
  · rw [if_neg h2, if_pos hself]
    refine ⟨rfl, ?_, fun _ _ _ _ => rfl⟩
    intro hat0
    exact absurd (Or.inr (Or.inr hat0)) h2

/-- Witness for the amended C6 theorem at a concrete self-reaction. -/
theorem claim6_amended_witness :
    (on_raw_reaction_add fixDbC7 fixSelfAttach).db = fixDbC7 ∧
    (fixSelfAttach.attachments = 0 →
      (on_raw_reaction_add fixDbC7 fixSelfAttach).retraction = false) ∧
    (fixSelfAttach.voter_bot = false → fixSelfAttach.author_in_guild = true →
      fixSelfAttach.author_bot = false → fixSelfAttach.attachments ≠ 0 →
      (on_raw_reaction_add fixDbC7 fixSelfAttach).retraction = true) :=
  claim6_amended fixDbC7 fixSelfAttach rfl

/-- Claim C8 counterexample: the `top` display filter tests
`downvotes_earned ≠ 0 or score ≠ 0`.  In the reachable state of
`fixEvsC8` (one earned upvote, then `change_up` with delta -1), user 1's
row has zero upvotes and zero downvotes but score 1, and it appears in the
listing under the `score` criterion, refuting the claimed exclusion. -/
theorem claim8_counterexample :
    ∃ r, r ∈ topDisplay (runSys fixEvsC8) "score" 5 ∧
      r.upvotes_earned = 0 ∧ r.downvotes_earned = 0 :=
  ⟨⟨1, "a", 0, 0, 1, 0⟩, by decide, by decide, by decide⟩

/-- Claim C8 amended: for a fetched row whose cached score is consistent
(`score = upvotes_earned - downvotes_earned`, as in every reaction-only
state), zero upvotes and zero downvotes mean the row is displayed exactly
under the `times_voted` criterion; the code's filter keys on
`downvotes_earned` and `score`, so the exclusion can fail for rows whose
score cache was skewed by the admin adjust commands. -/
theorem claim8_amended (db : Db) (k : String) (n : Nat) (r : UserRow)
    (hu : r.upvotes_earned = 0) (hd : r.downvotes_earned = 0)
    (hs : r.score = r.upvotes_earned - r.downvotes_earned) :
    (r ∈ topDisplay db k n ↔ (k = "times_voted" ∧ r ∈ topQuery db k n)) := by
  unfold topDisplay
  rw [List.mem_filter]
  unfold topKeep
  have hs0 : r.score = 0 := by rw [hs, hu, hd]; norm_num
  rw [hd, hs0]
  simp only [bne_self_eq_false, Bool.or_self, Bool.false_or, beq_iff_eq]
  constructor
  · intro hx
    exact ⟨hx.2, hx.1⟩
  · intro hx
    exact ⟨hx.2, hx.1⟩

/-- Witness for the amended C8 theorem: a pure voter is displayed under the
`times_voted` criterion. -/
theorem claim8_amended_witness :
    ((⟨1, "a", 0, 0, 0, 3⟩ : UserRow) ∈ topDisplay fixDbC8w "times_voted" 1 ↔
      ("times_voted" = "times_voted" ∧
        (⟨1, "a", 0, 0, 0, 3⟩ : UserRow) ∈ topQuery fixDbC8w "times_voted" 1)) :=
  claim8_amended fixDbC8w "times_voted" 1 ⟨1, "a", 0, 0, 0, 3⟩ rfl rfl (by decide)

/-- Claim C9 counterexample: `on_raw_reaction_remove` contains no monitor
block, so a removal on a message whose live tallies are 0 upvotes and 10
downvotes (well over the `downvotes > upvotes + 5` threshold) emits no
alert, refuting the claim that the monitor runs on both event directions. -/
theorem claim9_counterexample :
    fixEvC9.msg_up + 5 < fixEvC9.msg_down ∧
    (on_raw_reaction_remove fixDbC9 fixEvC9).alerts = 0 :=
  ⟨by decide, rfl⟩

/-- Claim C9 amended: the monitor re-sum runs only in the add handler and
only for events that survive the drop gates; there it emits exactly one
alert when the message's downvote tally exceeds its upvote tally plus 5,
while the remove handler never alerts. -/
theorem claim9_amended (db db2 : Db) (e e2 : ReactionEvent)
    (hb : e.voter_bot = false) (hg : e.author_in_guild = true)
    (hab : e.author_bot = false) (hat : e.attachments ≠ 0)
    (hself : e.author_id ≠ e.voter_id) :
    (on_raw_reaction_add db e).alerts =
      (if e.msg_up + 5 < e.msg_down then 1 else 0) ∧
    (on_raw_reaction_remove db2 e2).alerts = 0 := by
  constructor
  · unfold on_raw_reaction_add
    rw [if_neg (by simp [hb]), if_neg (by simp [hg, hab, hat]), if_neg hself]
  · rfl

/-- Witness for the amended C9 theorem at a concrete over-threshold add. -/
theorem claim9_amended_witness :
    (on_raw_reaction_add fixDbC9 fixEvC9w).alerts =
      (if fixEvC9w.msg_up + 5 < fixEvC9w.msg_down then 1 else 0) ∧
    (on_raw_reaction_remove fixDbC9 fixEvC9).alerts = 0 :=
  claim9_amended fixDbC9 fixDbC9 fixEvC9w fixEvC9 rfl rfl rfl
    (by decide) (by decide)

/-- Claim C10: `top` applies the row limit in the query
(`ORDER BY ... LIMIT n`) and only then filters the fetched rows, so a state
exists (reached in `fixEvsC10`) where `top 1 score` displays no account even
though one account satisfies both the ordering and the display filter. -/
theorem claim10_query_limit_precedes_filter :
    (∀ db k n, topDisplay db k n = (topQuery db k n).filter (topKeep k)) ∧
    (topDisplay (runSys fixEvsC10) "score" 1).length < 1 ∧
    1 ≤ ((runSys fixEvsC10).filter (topKeep "score")).length :=
  ⟨fun db k n => rfl, by decide, by decide⟩


/-- Claim C7: for any state and any upvote add event that passes every add
gate, followed by the matching upvote remove on the same pair, the target
author's `upvotes_earned` and `score` return to their pre-sequence values
(the floor guard cannot trigger because the add left the counter positive,
given the author's rows start non-negative). -/
theorem claim7_roundtrip (db : Db) (e : ReactionEvent)
    (hb : e.voter_bot = false) (hg : e.author_in_guild = true)
    (hab : e.author_bot = false) (hat : e.attachments ≠ 0)
    (hself : e.author_id ≠ e.voter_id) (hem : e.emoji = "1Upvote")
    (hfloor : ∀ r, r ∈ db → r.user_id = e.author_id → 0 ≤ r.upvotes_earned) :
    Option.map (fun r => (r.upvotes_earned, r.score))
        (dbFind (on_raw_reaction_remove (on_raw_reaction_add db e).db e).db
          e.author_id) =
      Option.map (fun r => (r.upvotes_earned, r.score)) (dbFind db e.author_id) := by
  have hadd : (on_raw_reaction_add db e).db =
      dbUpdate (dbUpdate (dbUpdate db e.author_id
          (fun r => { r with upvotes_earned := r.upvotes_earned + 1 }))
        e.author_id (fun r => { r with score := r.score + 1 }))
        e.voter_id (fun r => { r with times_voted := r.times_voted + 1 }) := by
    unfold on_raw_reaction_add
    rw [if_neg (by simp [hb]), if_neg (by simp [hg, hab, hat]), if_neg hself]
    dsimp only
    rw [if_pos hem, if_pos (Or.inl hem)]
  have hvne : e.voter_id ≠ e.author_id := fun hc => hself hc.symm
  have ha1 := dbFind_dbUpdate_ne
      (dbUpdate (dbUpdate db e.author_id
        (fun r => { r with upvotes_earned := r.upvotes_earned + 1 }))
        e.author_id (fun r => { r with score := r.score + 1 }))
      e.voter_id e.author_id
      (fun r => { r with times_voted := r.times_voted + 1 })
      (fun r => rfl) hvne
  have ha2 := dbFind_dbUpdate_self
      (dbUpdate db e.author_id
        (fun r => { r with upvotes_earned := r.upvotes_earned + 1 }))
      e.author_id (fun r => { r with score := r.score + 1 }) (fun r => rfl)
  have ha3 := dbFind_dbUpdate_self db e.author_id
      (fun r => { r with upvotes_earned := r.upvotes_earned + 1 }) (fun r => rfl)
  have hfindA : dbFind (on_raw_reaction_add db e).db e.author_id =
      (dbFind db e.author_id).map
        (fun r => { r with upvotes_earned := r.upvotes_earned + 1,
                           score := r.score + 1 }) := by
    rw [hadd, ha1, ha2, ha3]
    cases dbFind db e.author_id <;> rfl
  unfold on_raw_reaction_remove
  dsimp only
  unfold removeCore
  rw [if_neg (by simp [hg]), if_neg (by simp [hab, hself, hat]), if_pos hem,
    hfindA]
  cases hc : dbFind db e.author_id with
  | none =>
    simp only [Option.map_none']
    rw [hc] at hfindA
    simp only [Option.map_none'] at hfindA
    rw [hfindA]
    rfl
  | some r =>
    simp only [Option.map_some']
    have hr0 : 0 ≤ r.upvotes_earned := hfloor r (dbFind_mem hc) (dbFind_key hc)
    rw [if_pos (show (0 : Int) < r.upvotes_earned + 1 by omega)]
    have hstep1 := dbFind_dbUpdate_ne
      (dbUpdate (dbUpdate (on_raw_reaction_add db e).db e.author_id
        (fun u => { u with upvotes_earned := u.upvotes_earned - 1 }))
        e.author_id (fun u => { u with score := u.score - 1 }))
      e.voter_id e.author_id
      (fun u => { u with times_voted := u.times_voted - 1 })
      (fun u => rfl) hvne
    have hstep2 := dbFind_dbUpdate_self
      (dbUpdate (on_raw_reaction_add db e).db e.author_id
        (fun u => { u with upvotes_earned := u.upvotes_earned - 1 }))
      e.author_id (fun u => { u with score := u.score - 1 }) (fun u => rfl)
    have hstep3 := dbFind_dbUpdate_self (on_raw_reaction_add db e).db
      e.author_id (fun u => { u with upvotes_earned := u.upvotes_earned - 1 })
      (fun u => rfl)
    rw [hstep1, hstep2, hstep3, hfindA, hc]
    simp

/-- Witness for the C7 round-trip theorem at a concrete two-user state. -/
theorem claim7_roundtrip_witness :
    Option.map (fun r => (r.upvotes_earned, r.score))
        (dbFind (on_raw_reaction_remove (on_raw_reaction_add fixDbC7 fixEvC7).db
          fixEvC7).db fixEvC7.author_id) =
      Option.map (fun r => (r.upvotes_earned, r.score))
        (dbFind fixDbC7 fixEvC7.author_id) :=
  claim7_roundtrip fixDbC7 fixEvC7 rfl rfl rfl (by decide) (by decide) rfl
    (by decide)
